import Mathlib

/-!
Verification of the AML transaction-scoring and alert-lifecycle engine.

The definitions below are a shallow embedding of the Python sources
`AI_agents/transcations/aml_detection_agent.py` (rule evaluator, risk
classifier, threshold calibrator) and `AI_agents/transcations/api_server.py`
(alert store: resolve / purge / list, monthly reports, batch loading).

Modelling conventions:
* A CSV cell is `Option String`: `none` is a missing cell (pandas NaN).
  Python's `str(row.get(col, ''))` on a missing cell yields either `''`
  (column absent) or `'nan'` (NaN value); both strings fail every
  comparison the rules perform (`'TRUE'`, `'FALSE'`, `'low'`, ...), so the
  embedding uses `''` for a missing cell, which is comparison-equivalent.
* The `amount` cell is `Option (Option ℚ)`: the outer layer is cell
  presence (`pd.notna`), the inner layer is the result of `float(...)` /
  `pd.to_numeric(..., errors='coerce')` (`none` = unparseable text).
* Machine floats are modelled as exact rationals.
* Timestamps are modelled as integer seconds; a stored `resolved_at`
  value is `Option Int`, where `none` models a string that
  `datetime.fromisoformat` fails to parse.
-/

namespace AML

/-- A transaction record (one row of the input batch), restricted to the
fields the rule evaluator and the API handlers read. -/
structure Row where
  transaction_id : Option String := none
  customer_id : Option String := none
  amount : Option (Option ℚ) := none
  currency : Option String := none
  regulator : Option String := none
  booking_jurisdiction : Option String := none
  customer_type : Option String := none
  customer_risk_rating : Option String := none
  client_risk_profile : Option String := none
  customer_is_pep : Option String := none
  edd_required : Option String := none
  edd_performed : Option String := none
  sow_documented : Option String := none
  suitability_assessed : Option String := none
  suitability_result : Option String := none
  cash_id_verified : Option String := none
  sanctions_screening : Option String := none
  booking_datetime : Option String := none
deriving DecidableEq, Repr, Inhabited

/-- `str(row.get(col, ''))` for a cell modelled as `Option String`. -/
def getStr (o : Option String) : String := o.getD ""

/-- `str.upper()` (ASCII), written by structural recursion over the
character list so that concrete instances evaluate inside the kernel. -/
def strUpper (s : String) : String := String.mk (s.data.map Char.toUpper)

/-- `str.lower()` (ASCII), by structural recursion over the characters. -/
def strLower (s : String) : String := String.mk (s.data.map Char.toLower)

/-- Whitespace as removed by `str.strip()` (ASCII cases). -/
def isStripWS (c : Char) : Bool := c = ' ' ∨ c = '\t' ∨ c = '\n' ∨ c = '\r'

/-- `str.strip()`: drop whitespace from both ends. -/
def strStrip (s : String) : String :=
  String.mk (((s.data.dropWhile isStripWS).reverse.dropWhile isStripWS).reverse)

/-- Identity of each rule's reason message (the human-readable strings of
the source, represented by constructors; the two amount rules and the
risk-rating rule interpolate data into their message). -/
inductive Reason where
  | pep
  | domiciliaryNoEDD
  | eddRequiredNotPerformed
  | sowNotDocumented
  | lowRiskHighAmount (amount : ℚ)
  | suitabilityNotAssessed
  | suitabilityMismatch
  | cashIdNotVerified
  | masDomiciliaryNoEDD
  | finmaRiskNoEDD
  | hkmaMissingSOW
  | unusualAmountLowRisk (amount : ℚ)
  | domiciliaryCompany
  | customerRiskRating (rating : String)
  | sanctionsPotential
deriving DecidableEq, Repr

/-- High-risk rule 1: `pd.notna(customer_is_pep) and str(...).upper() == 'TRUE'`. -/
def hr_rule1 (row : Row) : Option Reason :=
  match row.customer_is_pep with
  | some s => if strUpper s = "TRUE" then some Reason.pep else none
  | none => none

/-- High-risk rule 2: domiciliary company and `edd_performed` not `'TRUE'`. -/
def hr_rule2 (row : Row) : Option Reason :=
  if strLower (getStr row.customer_type) = "domiciliary_company" ∧
     strUpper (getStr row.edd_performed) ≠ "TRUE"
  then some Reason.domiciliaryNoEDD else none

/-- High-risk rule 3: `edd_required == 'TRUE'` and `edd_performed` not `'TRUE'`. -/
def hr_rule3 (row : Row) : Option Reason :=
  if strUpper (getStr row.edd_required) = "TRUE" ∧
     strUpper (getStr row.edd_performed) ≠ "TRUE"
  then some Reason.eddRequiredNotPerformed else none

/-- High-risk rule 4: `sow_documented == 'FALSE'`. -/
def hr_rule4 (row : Row) : Option Reason :=
  if strUpper (getStr row.sow_documented) = "FALSE"
  then some Reason.sowNotDocumented else none

/-- High-risk rule 5: amount present and parseable, `client_risk_profile`
is `'low'`, threshold truthy (nonzero float) and amount above threshold. -/
def hr_rule5 (thr : ℚ) (row : Row) : Option Reason :=
  match row.amount with
  | some (some amount) =>
      if strLower (getStr row.client_risk_profile) = "low" ∧ thr ≠ 0 ∧ amount > thr
      then some (Reason.lowRiskHighAmount amount) else none
  | _ => none

/-- High-risk rule 6: `suitability_assessed == 'FALSE'`. -/
def hr_rule6 (row : Row) : Option Reason :=
  if strUpper (getStr row.suitability_assessed) = "FALSE"
  then some Reason.suitabilityNotAssessed else none

/-- High-risk rule 7: `suitability_assessed == 'TRUE'` and result `'mismatch'`. -/
def hr_rule7 (row : Row) : Option Reason :=
  if strUpper (getStr row.suitability_assessed) = "TRUE" ∧
     strLower (getStr row.suitability_result) = "mismatch"
  then some Reason.suitabilityMismatch else none

/-- High-risk rule 8: `cash_id_verified == 'FALSE'`. -/
def hr_rule8 (row : Row) : Option Reason :=
  if strUpper (getStr row.cash_id_verified) = "FALSE"
  then some Reason.cashIdNotVerified else none

/-- `AMLDetectionAgent.check_high_risk_variables`: `is_high_risk` is true
exactly when at least one of the eight rules fired; reason strings are
appended in the fixed rule order. -/
def check_high_risk_variables (thr : ℚ) (row : Row) : Bool × List Reason :=
  let reasons := List.filterMap id
    [hr_rule1 row, hr_rule2 row, hr_rule3 row, hr_rule4 row,
     hr_rule5 thr row, hr_rule6 row, hr_rule7 row, hr_rule8 row]
  (!reasons.isEmpty, reasons)

/-- Suspicious-indicator rule 1: regulator-specific AML control gap
(`regulator` stripped, then MAS / FINMA / HKMA-SFC branch). -/
def sd_rule1 (row : Row) : Option Reason :=
  if strStrip (getStr row.regulator) = "MAS" then
    if strLower (getStr row.customer_type) = "domiciliary_company" ∧
       strUpper (getStr row.edd_performed) ≠ "TRUE"
    then some Reason.masDomiciliaryNoEDD else none
  else if strStrip (getStr row.regulator) = "FINMA" then
    if (strLower (getStr row.customer_risk_rating) = "high" ∨
        strLower (getStr row.customer_risk_rating) = "medium") ∧
       strUpper (getStr row.edd_performed) ≠ "TRUE"
    then some Reason.finmaRiskNoEDD else none
  else if strStrip (getStr row.regulator) = "HKMA/SFC" then
    if strUpper (getStr row.sow_documented) = "FALSE"
    then some Reason.hkmaMissingSOW else none
  else none

/-- Suspicious-indicator rule 2: amount present/parseable, threshold
truthy, low risk profile and amount above threshold. -/
def sd_rule2 (thr : ℚ) (row : Row) : Option Reason :=
  match row.amount with
  | some (some amount) =>
      if thr ≠ 0 ∧ strLower (getStr row.client_risk_profile) = "low" ∧ amount > thr
      then some (Reason.unusualAmountLowRisk amount) else none
  | _ => none

/-- Suspicious-indicator rule 3: customer type is domiciliary company. -/
def sd_rule3 (row : Row) : Option Reason :=
  if strLower (getStr row.customer_type) = "domiciliary_company"
  then some Reason.domiciliaryCompany else none

/-- Suspicious-indicator rule 4: customer risk rating medium or high. -/
def sd_rule4 (row : Row) : Option Reason :=
  if strLower (getStr row.customer_risk_rating) = "medium" ∨
     strLower (getStr row.customer_risk_rating) = "high"
  then some (Reason.customerRiskRating (strLower (getStr row.customer_risk_rating)))
  else none

/-- Suspicious-indicator rule 5: sanctions screening equals `'potential'`. -/
def sd_rule5 (row : Row) : Option Reason :=
  if strLower (getStr row.sanctions_screening) = "potential"
  then some Reason.sanctionsPotential else none

/-- `AMLDetectionAgent.check_suspicious_detection_variables`: the count is
incremented once per fired rule and a reason appended, in rule order. -/
def check_suspicious_detection_variables (thr : ℚ) (row : Row) : Nat × List Reason :=
  let reasons := List.filterMap id
    [sd_rule1 row, sd_rule2 thr row, sd_rule3 row, sd_rule4 row, sd_rule5 row]
  (reasons.length, reasons)

/-- `AMLDetectionAgent.classify_risk`, transcribed branch by branch. -/
def classify_risk (high_risk_detected : Bool) (suspicious_count : Nat) : String :=
  if high_risk_detected then "HIGH PRIORITY RISK"
  else if suspicious_count = 0 then ""
  else if suspicious_count = 1 then ""
  else if suspicious_count = 2 then "LOW RISK"
  else if 3 ≤ suspicious_count ∧ suspicious_count ≤ 4 then "MEDIUM RISK"
  else if 5 ≤ suspicious_count then "HIGH PRIORITY RISK"
  else ""

/-- The per-transaction output record built in
`AMLDetectionAgent.process_dataframe`. -/
structure DetectionResult where
  transaction_id : String
  is_suspicious : Bool
  risk_category : String
  suspicious_detection_count : Nat
  high_risk_detected : Bool
  reasons : List Reason
deriving DecidableEq, Repr

/-- The loop body of `process_dataframe` for one row (given the threshold
computed for the batch).  `is_suspicious` is `1 if risk_category else 0`,
i.e. true exactly when the category string is nonempty. -/
def score_row (thr : ℚ) (row : Row) : DetectionResult :=
  let hr := check_high_risk_variables thr row
  let sd := check_suspicious_detection_variables thr row
  let risk_category := classify_risk hr.1 sd.1
  { transaction_id := getStr row.transaction_id
    is_suspicious := risk_category ≠ ""
    risk_category := risk_category
    suspicious_detection_count := sd.1
    high_risk_detected := hr.1
    reasons := hr.2 ++ sd.2 }

/-- `pd.to_numeric(df['amount'], errors='coerce').dropna()`: the amounts
of the batch that parse as numeric, in row order. -/
def parsed_amounts (rows : List Row) : List ℚ :=
  rows.filterMap (fun r => r.amount.bind id)

/-- The percentile used by the agent (default 95). -/
def high_amount_threshold_percentile : ℚ := 95

/-- `np.percentile` with the default linear-interpolation method:
sort ascending, take position `p/100 * (n-1)` and interpolate linearly
between the two neighbouring order statistics. -/
def percentile (p : ℚ) (l : List ℚ) : ℚ :=
  let s := List.insertionSort (· ≤ ·) l
  if s.length = 0 then 0
  else
    let pos : ℚ := p / 100 * ((s.length : ℚ) - 1)
    let i : Nat := (Int.floor pos).toNat
    s.getD i 0 + (pos - Int.floor pos) * (s.getD (min (i + 1) (s.length - 1)) 0 - s.getD i 0)

/-- `AMLDetectionAgent.calculate_high_amount_threshold`: the 95th
percentile of the parseable amounts, or the fixed fallback `1000000`
when no amount parses (or the column is absent). -/
def calculate_high_amount_threshold (rows : List Row) : ℚ :=
  let amounts := parsed_amounts rows
  if amounts.length > 0 then percentile high_amount_threshold_percentile amounts
  else 1000000

/-- `AMLDetectionAgent.process_dataframe`: compute the batch threshold
once, then score every row against that same threshold. -/
def process_dataframe (rows : List Row) : List DetectionResult :=
  let thr := calculate_high_amount_threshold rows
  rows.map (score_row thr)

/-! ### Helper lemmas about the classifier -/

theorem classify_risk_of_le_one {c : Nat} (h : c ≤ 1) : classify_risk false c = "" := by
  unfold classify_risk
  interval_cases c <;> simp

theorem classify_risk_of_two : classify_risk false 2 = "LOW RISK" := by
  unfold classify_risk; simp

theorem classify_risk_of_three_four {c : Nat} (h3 : 3 ≤ c) (h4 : c ≤ 4) :
    classify_risk false c = "MEDIUM RISK" := by
  unfold classify_risk
  interval_cases c <;> simp

theorem classify_risk_of_ge_five {c : Nat} (h : 5 ≤ c) :
    classify_risk false c = "HIGH PRIORITY RISK" := by
  unfold classify_risk
  split_ifs with h0 h1 h2 h3 h34 h5 <;> first | rfl | omega

/-! ### Claims C1 and C2 -/

/-- Claim C1: for every transaction where no high-risk rule fired, the risk
category is determined exactly by the suspicious detection count — count 0
or 1 gives the blank (not alertable) category, count 2 gives LOW, count 3
or 4 gives MEDIUM, count 5 or more gives HIGH PRIORITY — and
`is_suspicious` is true if and only if the risk category is not blank. -/
theorem C1_classification_table (thr : ℚ) (row : Row)
    (h : (score_row thr row).high_risk_detected = false) :
    ((score_row thr row).suspicious_detection_count ≤ 1 →
        (score_row thr row).risk_category = "" ∧
        (score_row thr row).is_suspicious = false) ∧
    ((score_row thr row).suspicious_detection_count = 2 →
        (score_row thr row).risk_category = "LOW RISK") ∧
    (3 ≤ (score_row thr row).suspicious_detection_count →
        (score_row thr row).suspicious_detection_count ≤ 4 →
        (score_row thr row).risk_category = "MEDIUM RISK") ∧
    (5 ≤ (score_row thr row).suspicious_detection_count →
        (score_row thr row).risk_category = "HIGH PRIORITY RISK") ∧
    ((score_row thr row).is_suspicious = true ↔
        (score_row thr row).risk_category ≠ "") := by
  have hhr : (check_high_risk_variables thr row).1 = false := h
  simp only [score_row, hhr]
  refine ⟨?_, ?_, ?_, ?_, ?_⟩
  · intro hc
    rw [classify_risk_of_le_one hc]
    simp
  · intro hc
    rw [hc, classify_risk_of_two]
  · intro h3 h4
    rw [classify_risk_of_three_four h3 h4]
  · intro h5
    rw [classify_risk_of_ge_five h5]
  · simp

/-- Witness for C1 at a concrete input: the all-missing row fires no
high-risk rule and has detection count 0, hence a blank category and
`is_suspicious = false`. -/
theorem C1_classification_table_witness :
    (score_row 1 ({} : Row)).risk_category = "" ∧
    (score_row 1 ({} : Row)).is_suspicious = false :=
  (C1_classification_table 1 {} (by decide)).1 (by decide)

/-- Claim C2: every transaction whose `customer_is_pep` field is true
(present and stringifying, upper-cased, to `'TRUE'`) is scored with
`high_risk_detected = true` and `risk_category = HIGH PRIORITY`, regardless
of all other fields and of the suspicious detection count. -/
theorem C2_pep_forces_high_priority (thr : ℚ) (row : Row) (s : String)
    (hpep : row.customer_is_pep = some s) (hs : strUpper s = "TRUE") :
    (score_row thr row).high_risk_detected = true ∧
    (score_row thr row).risk_category = "HIGH PRIORITY RISK" := by
  have h1 : hr_rule1 row = some Reason.pep := by
    unfold hr_rule1
    rw [hpep]
    simp [hs]
  have hfst : (check_high_risk_variables thr row).1 = true := by
    unfold check_high_risk_variables
    rw [h1]
    simp
  refine ⟨hfst, ?_⟩
  show classify_risk (check_high_risk_variables thr row).1 _ = _
  rw [hfst]
  rfl

/-- Witness for C2: a concrete transaction with `customer_is_pep = "true"`
is classified HIGH PRIORITY. -/
theorem C2_pep_forces_high_priority_witness :
    (score_row 1 { customer_is_pep := some "true" : Row }).risk_category =
      "HIGH PRIORITY RISK" :=
  (C2_pep_forces_high_priority 1 { customer_is_pep := some "true" } "true"
    rfl (by decide)).2

/-! ### Claim C3 (corrected) -/

/-- A transaction whose `customer_type` is a domiciliary company but whose
`edd_performed` cell is missing. -/
def c3row : Row := { customer_type := some "domiciliary_company" }

/-- Claim C3 counterexample: the claim "a missing or malformed field
behaves exactly as if the corresponding rule did not match" is false.  For
a row with `customer_type = domiciliary_company` and `edd_performed`
missing, high-risk rule 2 ("domiciliary company without EDD") *does*
match — precisely because the field is missing — and the transaction is
flagged HIGH PRIORITY; supplying `edd_performed = "TRUE"` makes the rule
not match. -/
theorem C3_counterexample :
    c3row.edd_performed = none ∧
    (score_row 1 c3row).high_risk_detected = true ∧
    Reason.domiciliaryNoEDD ∈ (score_row 1 c3row).reasons ∧
    (score_row 1 c3row).risk_category = "HIGH PRIORITY RISK" ∧
    (score_row 1 { c3row with edd_performed := some "TRUE" }).high_risk_detected
      = false := by
  refine ⟨rfl, ?_, ?_, ?_, ?_⟩ <;> decide

theorem sd_rule1_eq_mas {row : Row}
    (h : sd_rule1 row = some Reason.masDomiciliaryNoEDD) :
    strLower (getStr row.customer_type) = "domiciliary_company" := by
  unfold sd_rule1 at h
  split_ifs at h with h1 h2 h3 h4 h5 <;> simp_all

theorem sd_rule1_eq_finma {row : Row}
    (h : sd_rule1 row = some Reason.finmaRiskNoEDD) :
    strLower (getStr row.customer_risk_rating) = "high" ∨
    strLower (getStr row.customer_risk_rating) = "medium" := by
  unfold sd_rule1 at h
  split_ifs at h with h1 h2 h3 h4 h5 <;> simp_all

theorem sd_rule1_eq_hkma {row : Row}
    (h : sd_rule1 row = some Reason.hkmaMissingSOW) :
    strUpper (getStr row.sow_documented) = "FALSE" := by
  unfold sd_rule1 at h
  split_ifs at h with h1 h2 h3 h4 h5 <;> simp_all

/-- Claim C3 as amended: the rule evaluator is total (it always produces a
`DetectionResult`, with at most five suspicious indicators), and a missing
field never satisfies a positive field-level test — the PEP, SOW, amount,
suitability, cash-ID, customer-type, risk-rating, sanctions and regulator
rules do not fire when their field is missing (or, for the amount, is
non-numeric text).  However, rules phrased negatively over
`edd_performed` (high-risk rules 2 and 3, and the MAS/FINMA indicator)
treat a missing or malformed `edd_performed` as "not performed" and may
fire. -/
theorem C3_amended (thr : ℚ) (row : Row) :
    (score_row thr row).suspicious_detection_count ≤ 5 ∧
    (row.customer_is_pep = none → hr_rule1 row = none) ∧
    (row.amount = none ∨ row.amount = some none →
        hr_rule5 thr row = none ∧ sd_rule2 thr row = none) ∧
    (row.sow_documented = none →
        hr_rule4 row = none ∧ sd_rule1 row ≠ some Reason.hkmaMissingSOW) ∧
    (row.customer_type = none →
        hr_rule2 row = none ∧ sd_rule3 row = none ∧
        sd_rule1 row ≠ some Reason.masDomiciliaryNoEDD) ∧
    (row.suitability_assessed = none →
        hr_rule6 row = none ∧ hr_rule7 row = none) ∧
    (row.cash_id_verified = none → hr_rule8 row = none) ∧
    (row.customer_risk_rating = none →
        sd_rule4 row = none ∧ sd_rule1 row ≠ some Reason.finmaRiskNoEDD) ∧
    (row.sanctions_screening = none → sd_rule5 row = none) ∧
    (row.regulator = none → sd_rule1 row = none) := by
  refine ⟨?_, ?_, ?_, ?_, ?_, ?_, ?_, ?_, ?_, ?_⟩
  · show (check_suspicious_detection_variables thr row).1 ≤ 5
    unfold check_suspicious_detection_variables
    exact le_trans (List.length_filterMap_le _ _) (by simp)
  · intro h; unfold hr_rule1; rw [h]
  · rintro (h | h) <;>
      refine ⟨?_, ?_⟩ <;> first
        | (unfold hr_rule5; rw [h])
        | (unfold sd_rule2; rw [h])
  · intro h
    refine ⟨?_, fun hc => ?_⟩
    · unfold hr_rule4; rw [h]
      exact if_neg (by decide)
    · have := sd_rule1_eq_hkma hc
      rw [h] at this
      exact absurd this (by decide)
  · intro h
    refine ⟨?_, ?_, fun hc => ?_⟩
    · unfold hr_rule2; rw [h]
      exact if_neg (fun hcond => absurd hcond.1 (by decide))
    · unfold sd_rule3; rw [h]
      exact if_neg (by decide)
    · have := sd_rule1_eq_mas hc
      rw [h] at this
      exact absurd this (by decide)
  · intro h
    refine ⟨?_, ?_⟩
    · unfold hr_rule6; rw [h]
      exact if_neg (by decide)
    · unfold hr_rule7; rw [h]
      exact if_neg (fun hcond => absurd hcond.1 (by decide))
  · intro h; unfold hr_rule8; rw [h]
    exact if_neg (by decide)
  · intro h
    refine ⟨?_, fun hc => ?_⟩
    · unfold sd_rule4; rw [h]
      exact if_neg (by decide)
    · have := sd_rule1_eq_finma hc
      rw [h] at this
      exact absurd this (by decide)
  · intro h; unfold sd_rule5; rw [h]
    exact if_neg (by decide)
  · intro h; unfold sd_rule1; rw [h]
    rw [if_neg (by decide), if_neg (by decide), if_neg (by decide)]

/-- Witness for C3 (amended) at a concrete input: the all-missing row has
no regulator, and indeed the regulator rule yields no indicator. -/
theorem C3_amended_witness : sd_rule1 ({} : Row) = none :=
  (C3_amended 1 {}).2.2.2.2.2.2.2.2.2 rfl

/-! ### Claim C4 -/

/-- Claim C4: the threshold calibrator returns the 95th percentile of the
batch's amounts that parse as numeric (ignoring missing and non-numeric
entries: appending such a row leaves the threshold unchanged); when no
amount parses it returns the fallback constant 1,000,000; and the
threshold is computed once per batch, every row of the scoring pass being
compared against that same value. -/
theorem C4_threshold_calibration (rows : List Row) :
    (parsed_amounts rows ≠ [] →
        calculate_high_amount_threshold rows =
          percentile high_amount_threshold_percentile (parsed_amounts rows)) ∧
    (parsed_amounts rows = [] → calculate_high_amount_threshold rows = 1000000) ∧
    (∀ r : Row, r.amount = none ∨ r.amount = some none →
        calculate_high_amount_threshold (rows ++ [r]) =
          calculate_high_amount_threshold rows) ∧
    process_dataframe rows = rows.map (score_row (calculate_high_amount_threshold rows)) := by
  refine ⟨?_, ?_, ?_, rfl⟩
  · intro h
    unfold calculate_high_amount_threshold
    rw [if_pos]
    exact List.length_pos.mpr h
  · intro h
    unfold calculate_high_amount_threshold
    rw [if_neg]
    simp [h]
  · intro r hr
    have hpa : parsed_amounts (rows ++ [r]) = parsed_amounts rows := by
      unfold parsed_amounts
      rw [List.filterMap_append]
      rcases hr with h | h <;> simp [h]
    unfold calculate_high_amount_threshold
    rw [hpa]

/-- Witness for C4 at a concrete input: a batch with a single parseable
amount 5 gets its threshold from the percentile computation (which equals
5 there), and a batch of unparseable amounts falls back to 1,000,000. -/
theorem C4_threshold_calibration_witness :
    calculate_high_amount_threshold [{ amount := some (some 5) }] =
      percentile high_amount_threshold_percentile
        (parsed_amounts [{ amount := some (some 5) }]) ∧
    calculate_high_amount_threshold [{ amount := some none : Row }] = 1000000 :=
  ⟨(C4_threshold_calibration [{ amount := some (some 5) }]).1 (by decide),
   (C4_threshold_calibration [{ amount := some none }]).2.1 (by decide)⟩

/-! ### API server state

`api_server.py` keeps module-level mutable state: the scored batch
`df_scored`, the resolution dict `resolved_alerts`, and the monthly-report
files on disk.  A Python dict (and the reports directory) is modelled as a
string-keyed association list with at most one entry per key; `dictSet` is
dict assignment (overwrite in place, append when absent). -/

def dictGet {α : Type} : List (String × α) → String → Option α
  | [], _ => none
  | (k, v) :: rest, key => if k = key then some v else dictGet rest key

def dictSet {α : Type} : List (String × α) → String → α → List (String × α)
  | [], key, v => [(key, v)]
  | (k, w) :: rest, key, v =>
      if k = key then (key, v) :: rest else (k, w) :: dictSet rest key v

/-- The value stored in `resolved_alerts[tid]`: the analyst note and the
`resolved_at` timestamp (`none` models a stored string that
`datetime.fromisoformat` fails to parse). -/
structure ResolvedMeta where
  note : String
  resolved_at : Option Int
deriving DecidableEq, Repr

/-- The `resolved_alerts` dict. -/
abbrev RMap := List (String × ResolvedMeta)

/-- `RETENTION_DAYS = 30`. -/
def RETENTION_DAYS : Int := 30

/-- `REPORT_RETENTION_DAYS = 365`. -/
def REPORT_RETENTION_DAYS : Int := 365

def secondsPerDay : Int := 86400

/-- `purge_old_resolved_alerts`: one cutoff `now - 30 days` for the sweep;
delete every entry whose timestamp fails to parse (`dt is None`) or is
before the cutoff. -/
def purge_old_resolved_alerts (m : RMap) (now : Int) : RMap :=
  m.filter (fun p =>
    match p.2.resolved_at with
    | none => false
    | some t => decide (¬ t < now - RETENTION_DAYS * secondsPerDay))

/-- A row of `df_scored`: the raw transaction merged with its detection
result (the source merges on `transaction_id`; ids are unique per batch,
making the merge positional). -/
abbrev ScoredRow := Row × DetectionResult

/-- `resolve_alert` (`POST /api/alerts/resolve`): 404 unless the id equals
the `transaction_id` of some suspicious row of the scored batch; otherwise
`resolved_alerts[tid] = {note, resolved_at: utcnow}` (dict assignment,
last write wins). -/
def resolve_alert (df_scored : List ScoredRow) (m : RMap) (now : Int)
    (transaction_id : String) (note : Option String) : Except String RMap :=
  if (df_scored.filter (fun rr => rr.2.is_suspicious)).any
       (fun rr => getStr rr.1.transaction_id == transaction_id)
  then .ok (dictSet m transaction_id
        { note := note.getD "", resolved_at := some now })
  else .error ("Alert for transaction " ++ transaction_id ++
        " not found or not suspicious")

/-- `list_resolved_alerts` (`GET /api/alerts/resolved`): purge, then return
the retained entries (first component: the mutated global map). -/
def list_resolved_alerts (m : RMap) (now : Int) : RMap × RMap :=
  let m2 := purge_old_resolved_alerts m now
  (m2, m2)

/-- `load_and_score`: read the batch, keep only the first 100 rows
(`df_raw.iloc[:100]`), score them, and merge results back positionally. -/
def load_and_score (rows : List Row) : List ScoredRow :=
  let df_raw := rows.take 100
  df_raw.zip (process_dataframe df_raw)

/-- Query parameters of `GET /api/flags` (the comma-separated
`customer_ids` string arrives already split into a list). -/
structure FlagFilters where
  customer_id : Option String := none
  customer_ids : Option (List String) := none
  regulator : Option String := none
  booking_jurisdiction : Option String := none
  transaction_id : Option String := none
  resolved : Option Bool := none

/-- `df_scored[df_scored["is_suspicious"] == 1]`. -/
def flags_suspicious (df_scored : List ScoredRow) : List ScoredRow :=
  df_scored.filter (fun rr => rr.2.is_suspicious)

/-- Exact-match filter on `transaction_id` (when requested). -/
def flags_filter_tid (o : Option String) (l : List ScoredRow) : List ScoredRow :=
  match o with
  | some t => l.filter (fun rr => getStr rr.1.transaction_id == t)
  | none => l

/-- Exact-match filter on a single `customer_id` (when requested). -/
def flags_filter_cid (o : Option String) (l : List ScoredRow) : List ScoredRow :=
  match o with
  | some c => l.filter (fun rr => getStr rr.1.customer_id == c)
  | none => l

/-- Membership filter on a nonempty `customer_ids` list (when requested). -/
def flags_filter_cids (o : Option (List String)) (l : List ScoredRow) : List ScoredRow :=
  match o with
  | some ids =>
      if ids.length > 0
      then l.filter (fun rr => ids.contains (getStr rr.1.customer_id))
      else l
  | none => l

/-- Case-insensitive filter on `regulator` (when requested). -/
def flags_filter_reg (o : Option String) (l : List ScoredRow) : List ScoredRow :=
  match o with
  | some rg => l.filter (fun rr => strLower (getStr rr.1.regulator) == strLower rg)
  | none => l

/-- Case-insensitive filter on `booking_jurisdiction` (when requested). -/
def flags_filter_bj (o : Option String) (l : List ScoredRow) : List ScoredRow :=
  match o with
  | some bj =>
      l.filter (fun rr => strLower (getStr rr.1.booking_jurisdiction) == strLower bj)
  | none => l

/-- Filter on current resolution state (when requested). -/
def flags_filter_resolved (o : Option Bool) (m2 : RMap) (l : List ScoredRow) :
    List ScoredRow :=
  match o with
  | some true => l.filter (fun rr => (dictGet m2 (getStr rr.1.transaction_id)).isSome)
  | some false => l.filter (fun rr => !(dictGet m2 (getStr rr.1.transaction_id)).isSome)
  | none => l

/-- `get_flags` (`GET /api/flags`): purge the resolution map, restrict to
suspicious rows, apply the requested filters (ANDed), truncate to 500
records and annotate each with its current resolved flag.  Returns the
mutated resolution map and the records. -/
def get_flags (df_scored : List ScoredRow) (m : RMap) (now : Int)
    (f : FlagFilters) : RMap × List (ScoredRow × Bool) :=
  let m2 := purge_old_resolved_alerts m now
  let df := flags_filter_resolved f.resolved m2
    (flags_filter_bj f.booking_jurisdiction
      (flags_filter_reg f.regulator
        (flags_filter_cids f.customer_ids
          (flags_filter_cid f.customer_id
            (flags_filter_tid f.transaction_id (flags_suspicious df_scored))))))
  (m2, (df.take 500).map
    (fun rr => (rr, (dictGet m2 (getStr rr.1.transaction_id)).isSome)))

/-! ### Monthly reports -/

/-- The JSON summary written by `generate_monthly_report`. -/
structure ReportSummary where
  month : String
  generated_at : Int
  total_flagged : Nat
  resolved : Nat
  unresolved : Nat
  by_regulator : List (String × Nat)
  by_category : List (String × Nat)
deriving DecidableEq, Repr

/-- One step of `value_counts`: bump the count of `s`. -/
def bumpCount (acc : List (String × Nat)) (s : String) : List (String × Nat) :=
  match acc with
  | [] => [(s, 1)]
  | (k, n) :: rest => if k = s then (k, n + 1) :: rest else (k, n) :: bumpCount rest s

/-- `value_counts` of a string column, as key/count pairs. -/
def countBy (l : List String) : List (String × Nat) :=
  l.foldl bumpCount []

/-- The `reports/monthly` directory: per-month CSV extract
(`{month}.csv`, the flagged rows with a `resolved` annotation) and JSON
summary (`{month}.json`), each carrying content and file mtime. -/
structure ReportStore where
  csv : List (String × (List (ScoredRow × Bool) × Int))
  json : List (String × (ReportSummary × Int))
deriving DecidableEq, Repr

/-- `monthly_report_exists`: both the CSV and the JSON file exist. -/
def monthly_report_exists (st : ReportStore) (month : String) : Bool :=
  (dictGet st.csv month).isSome && (dictGet st.json month).isSome

/-- `purge_old_monthly_reports`: remove each report file (CSV and JSON
judged independently by their own mtime) older than
`now - 365 days`. -/
def purge_old_monthly_reports (st : ReportStore) (now : Int) : ReportStore :=
  { csv := st.csv.filter
      (fun p => decide (¬ p.2.2 < now - REPORT_RETENTION_DAYS * secondsPerDay))
    json := st.json.filter
      (fun p => decide (¬ p.2.2 < now - REPORT_RETENTION_DAYS * secondsPerDay)) }

/-- `datetime.utcnow().strftime("%Y-%m")` from unix seconds (civil
calendar from days, era-based Gregorian conversion). -/
def month_key (t : Int) : String :=
  let days := Int.fdiv t 86400
  let z := days + 719468
  let era := Int.fdiv z 146097
  let doe := z - era * 146097
  let yoe := Int.fdiv (doe - Int.fdiv doe 1460 + Int.fdiv doe 36524 - Int.fdiv doe 146096) 365
  let y := yoe + era * 400
  let doy := doe - (365 * yoe + Int.fdiv yoe 4 - Int.fdiv yoe 100)
  let mp := Int.fdiv (5 * doy + 2) 153
  let mo := if mp < 10 then mp + 3 else mp - 9
  let y2 := if mo ≤ 2 then y + 1 else y
  toString y2 ++ "-" ++ (if mo < 10 then "0" ++ toString mo else toString mo)

/-- `generate_monthly_report`: snapshot the currently flagged rows with a
resolved-at-snapshot-time annotation, write the CSV extract and the JSON
summary for the month (both files stamped `now`). -/
def generate_monthly_report (df_scored : List ScoredRow) (m : RMap)
    (st : ReportStore) (now : Int) (month : String) :
    ReportStore × ReportSummary :=
  let flagged := df_scored.filter (fun rr => rr.2.is_suspicious)
  let annotated := flagged.map
    (fun rr => (rr, (dictGet m (getStr rr.1.transaction_id)).isSome))
  let total := flagged.length
  let resolvedCount := (annotated.filter (fun x => x.2)).length
  let summary : ReportSummary :=
    { month := month
      generated_at := now
      total_flagged := total
      resolved := resolvedCount
      unresolved := total - resolvedCount
      by_regulator := countBy (flagged.map (fun rr => getStr rr.1.regulator))
      by_category := countBy (flagged.map (fun rr => rr.2.risk_category)) }
  ({ csv := dictSet st.csv month (annotated, now)
     json := dictSet st.json month (summary, now) }, summary)

/-- `reports_generate` (`POST /api/reports/generate`): purge stale report
files first; then, if the month's artifact pair (still) exists, no-op with
status `"exists"`, else generate it (status `"generated"`). -/
def reports_generate (df_scored : List ScoredRow) (m : RMap)
    (st : ReportStore) (now : Int) (monthArg : Option String) :
    ReportStore × String :=
  let st1 := purge_old_monthly_reports st now
  let month := monthArg.getD (month_key now)
  if monthly_report_exists st1 month then (st1, "exists")
  else ((generate_monthly_report df_scored m st1 now month).1, "generated")

/-! ### Dictionary lemmas -/

theorem dictGet_set {α : Type} (m : List (String × α)) (k : String) (v : α) :
    dictGet (dictSet m k v) k = some v := by
  induction m with
  | nil => simp [dictSet, dictGet]
  | cons p rest ih =>
    obtain ⟨k0, w⟩ := p
    by_cases h : k0 = k
    · simp [dictSet, h, dictGet]
    · simp [dictSet, h, dictGet, ih]

/-- The key list after a dict assignment: unchanged when the key was
present, extended by the key otherwise. -/
theorem dictSet_keys {α : Type} (m : List (String × α)) (k : String) (v : α) :
    (dictSet m k v).map Prod.fst =
      if k ∈ m.map Prod.fst then m.map Prod.fst else m.map Prod.fst ++ [k] := by
  induction m with
  | nil => simp [dictSet]
  | cons p rest ih =>
    obtain ⟨k0, w⟩ := p
    by_cases hk : k0 = k
    · subst hk
      simp [dictSet]
    · have hne : ¬(k = k0) := fun h => hk h.symm
      by_cases hmem : k ∈ rest.map Prod.fst <;>
        simp [dictSet, hk, ih, hmem, hne]

theorem dictSet_mem_keys {α : Type} (m : List (String × α)) (k : String) (v : α) :
    k ∈ (dictSet m k v).map Prod.fst := by
  rw [dictSet_keys]
  by_cases h : k ∈ m.map Prod.fst <;> simp [h]

theorem dictSet_keys_of_mem {α : Type} {m : List (String × α)} {k : String} (v : α)
    (h : k ∈ m.map Prod.fst) :
    (dictSet m k v).map Prod.fst = m.map Prod.fst := by
  rw [dictSet_keys, if_pos h]

theorem dictGet_none_of_not_mem {α : Type} {m : List (String × α)} {k : String}
    (h : k ∉ m.map Prod.fst) : dictGet m k = none := by
  induction m with
  | nil => rfl
  | cons p rest ih =>
    obtain ⟨k0, w⟩ := p
    simp only [List.map_cons, List.mem_cons] at h
    push_neg at h
    rw [dictGet, if_neg (fun hh => h.1 hh.symm)]
    exact ih h.2

theorem dictGet_isSome_of_mem {α : Type} {m : List (String × α)} {k : String}
    (h : k ∈ m.map Prod.fst) : (dictGet m k).isSome := by
  induction m with
  | nil => simp at h
  | cons p rest ih =>
    obtain ⟨k0, w⟩ := p
    by_cases hk : k0 = k
    · simp [dictGet, hk]
    · simp only [List.map_cons, List.mem_cons] at h
      rcases h with h | h
      · exact absurd h.symm hk
      · simp [dictGet, hk, ih h]

theorem dictGet_of_mem_nodup {α : Type} {m : List (String × α)}
    (hnd : (m.map Prod.fst).Nodup) {k : String} {v : α} (h : (k, v) ∈ m) :
    dictGet m k = some v := by
  induction m with
  | nil => simp at h
  | cons p rest ih =>
    obtain ⟨k0, w⟩ := p
    simp only [List.map_cons, List.nodup_cons] at hnd
    rcases List.mem_cons.mp h with heq | hmem
    · obtain ⟨rfl, rfl⟩ := Prod.mk.injEq .. ▸ Prod.ext_iff.mp heq
      simp [dictGet]
    · have hk : k0 ≠ k := by
        intro hk
        exact hnd.1 (List.mem_map.mpr ⟨(k, v), hmem, by simp [hk]⟩)
      simp [dictGet, hk, ih hnd.2 hmem]

theorem dictSet_nodup {α : Type} {m : List (String × α)} (k : String) (v : α)
    (hnd : (m.map Prod.fst).Nodup) :
    ((dictSet m k v).map Prod.fst).Nodup := by
  rw [dictSet_keys]
  by_cases hmem : k ∈ m.map Prod.fst
  · simpa [hmem] using hnd
  · simp [hmem, List.nodup_append, hnd]

theorem dictGet_filter_keep {α : Type} {m : List (String × α)} {k : String} {v : α}
    (p : String × α → Bool) (hget : dictGet m k = some v) (hp : p (k, v) = true) :
    dictGet (m.filter p) k = some v := by
  induction m with
  | nil => simp [dictGet] at hget
  | cons q rest ih =>
    obtain ⟨k0, w⟩ := q
    by_cases hk : k0 = k
    · subst hk
      rw [dictGet, if_pos rfl] at hget
      obtain rfl : w = v := by injection hget
      rw [List.filter_cons, if_pos hp]
      simp [dictGet]
    · rw [dictGet, if_neg hk] at hget
      rw [List.filter_cons]
      by_cases hpc : p (k0, w) = true
      · rw [if_pos hpc]
        simp [dictGet, hk, ih hget]
      · rw [if_neg hpc]
        exact ih hget

theorem dictGet_filter_none {α : Type} {m : List (String × α)} {k : String} {v : α}
    (p : String × α → Bool) (hnd : (m.map Prod.fst).Nodup)
    (hget : dictGet m k = some v) (hp : p (k, v) = false) :
    dictGet (m.filter p) k = none := by
  induction m with
  | nil => simp [dictGet] at hget
  | cons q rest ih =>
    obtain ⟨k0, w⟩ := q
    simp only [List.map_cons, List.nodup_cons] at hnd
    by_cases hk : k0 = k
    · subst hk
      rw [dictGet, if_pos rfl] at hget
      obtain rfl : w = v := by injection hget
      rw [List.filter_cons, if_neg (by simp [hp])]
      apply dictGet_none_of_not_mem
      intro hmem
      exact hnd.1 (List.map_subset _ (List.filter_sublist _).subset hmem)
    · rw [dictGet, if_neg hk] at hget
      rw [List.filter_cons]
      by_cases hpc : p (k0, w) = true
      · rw [if_pos hpc]
        simp [dictGet, hk, ih hnd.2 hget]
      · rw [if_neg hpc]
        exact ih hnd.2 hget

/-! ### Claim C5 -/

/-- `resolve_alert` succeeds exactly when the condition holds, and then
the new map is a dict assignment. -/
theorem resolve_alert_ok {df : List ScoredRow} {m m' : RMap} {now : Int}
    {tid : String} {note : Option String}
    (hok : resolve_alert df m now tid note = .ok m') :
    m' = dictSet m tid { note := note.getD "", resolved_at := some now } ∧
    (df.filter (fun rr => rr.2.is_suspicious)).any
      (fun rr => getStr rr.1.transaction_id == tid) = true := by
  unfold resolve_alert at hok
  split_ifs at hok with hc
  exact ⟨by injection hok with h; exact h.symm, hc⟩

/-- Claim C5: `resolve(transaction_id, note)` fails with NotFound iff the
id does not currently correspond to a suspicious row of the scored batch;
on success the note and resolution timestamp are recorded under the id;
and resolving an already-resolved id succeeds again, overwrites note and
timestamp (last write wins) and adds no duplicate entry (the key set is
unchanged). -/
theorem C5_resolve_contract (df : List ScoredRow) (m : RMap) (t1 t2 : Int)
    (tid : String) (note1 note2 : Option String) :
    ((∃ e, resolve_alert df m t1 tid note1 = .error e) ↔
      (df.filter (fun rr => rr.2.is_suspicious)).any
          (fun rr => getStr rr.1.transaction_id == tid) = false) ∧
    (∀ m', resolve_alert df m t1 tid note1 = .ok m' →
      dictGet m' tid = some { note := note1.getD "", resolved_at := some t1 } ∧
      resolve_alert df m' t2 tid note2 =
        .ok (dictSet m' tid { note := note2.getD "", resolved_at := some t2 }) ∧
      dictGet (dictSet m' tid { note := note2.getD "", resolved_at := some t2 }) tid =
        some { note := note2.getD "", resolved_at := some t2 } ∧
      (dictSet m' tid { note := note2.getD "", resolved_at := some t2 }).map Prod.fst =
        m'.map Prod.fst) := by
  constructor
  · by_cases hc : (df.filter (fun rr => rr.2.is_suspicious)).any
        (fun rr => getStr rr.1.transaction_id == tid) = true
    · simp [resolve_alert, hc]
    · simp only [Bool.not_eq_true] at hc
      simp [resolve_alert, hc]
  · intro m' hok
    obtain ⟨rfl, hc⟩ := resolve_alert_ok hok
    refine ⟨dictGet_set .., ?_, dictGet_set .., ?_⟩
    · unfold resolve_alert
      rw [if_pos hc]
    · exact dictSet_keys_of_mem _ (dictSet_mem_keys ..)

/-- A one-row scored batch whose single transaction `t1` is flagged. -/
def suspiciousBatch1 : List ScoredRow :=
  [({ transaction_id := some "t1" },
    { transaction_id := "t1", is_suspicious := true, risk_category := "LOW RISK",
      suspicious_detection_count := 2, high_risk_detected := false, reasons := [] })]

/-- Witness for C5 at a concrete input: resolving `t1` in the one-row
batch stores the note and timestamp under `t1`. -/
theorem C5_resolve_contract_witness :
    dictGet [("t1", ({ note := "a", resolved_at := some 0 } : ResolvedMeta))] "t1" =
      some { note := "a", resolved_at := some 0 } :=
  ((C5_resolve_contract suspiciousBatch1 [] 0 1 "t1" (some "a") (some "b")).2
    [("t1", { note := "a", resolved_at := some 0 })] rfl).1

/-! ### Claim C6 -/

/-- Claim C6: a resolution recorded at time `T` survives a purge sweep at
`T + 29 days` and is removed by a sweep at `T + 31 days`, after which
`listResolved()` (which runs an implicit purge) no longer includes it. -/
theorem C6_retention_window (df : List ScoredRow) (m : RMap) (T : Int)
    (tid : String) (note : Option String) (m' : RMap)
    (hnd : (m.map Prod.fst).Nodup)
    (hok : resolve_alert df m T tid note = .ok m') :
    dictGet (purge_old_resolved_alerts m' (T + 29 * secondsPerDay)) tid =
      some { note := note.getD "", resolved_at := some T } ∧
    dictGet (purge_old_resolved_alerts m' (T + 31 * secondsPerDay)) tid = none ∧
    ∀ p ∈ (list_resolved_alerts m' (T + 31 * secondsPerDay)).2, p.1 ≠ tid := by
  obtain ⟨rfl, -⟩ := resolve_alert_ok hok
  have hget : dictGet
      (dictSet m tid { note := note.getD "", resolved_at := some T }) tid =
      some { note := note.getD "", resolved_at := some T } := dictGet_set ..
  have hnd' : ((dictSet m tid
      { note := note.getD "", resolved_at := some T }).map Prod.fst).Nodup :=
    dictSet_nodup _ _ hnd
  have hkeep : (fun p : String × ResolvedMeta =>
      match p.2.resolved_at with
      | none => false
      | some t => decide (¬ t < (T + 29 * secondsPerDay) -
          RETENTION_DAYS * secondsPerDay))
      (tid, { note := note.getD "", resolved_at := some T }) = true := by
    show decide (¬ T < (T + 29 * secondsPerDay) - RETENTION_DAYS * secondsPerDay)
      = true
    simp only [decide_eq_true_eq, RETENTION_DAYS, secondsPerDay]
    omega
  have hdrop : (fun p : String × ResolvedMeta =>
      match p.2.resolved_at with
      | none => false
      | some t => decide (¬ t < (T + 31 * secondsPerDay) -
          RETENTION_DAYS * secondsPerDay))
      (tid, { note := note.getD "", resolved_at := some T }) = false := by
    show decide (¬ T < (T + 31 * secondsPerDay) - RETENTION_DAYS * secondsPerDay)
      = false
    simp only [decide_eq_false_iff_not, RETENTION_DAYS, secondsPerDay]
    omega
  have hnone : dictGet (purge_old_resolved_alerts
      (dictSet m tid { note := note.getD "", resolved_at := some T })
      (T + 31 * secondsPerDay)) tid = none := by
    unfold purge_old_resolved_alerts
    exact dictGet_filter_none _ hnd' hget hdrop
  refine ⟨?_, hnone, ?_⟩
  · unfold purge_old_resolved_alerts
    exact dictGet_filter_keep _ hget hkeep
  · intro p hp heq
    have hmem : p.1 ∈ (purge_old_resolved_alerts
        (dictSet m tid { note := note.getD "", resolved_at := some T })
        (T + 31 * secondsPerDay)).map Prod.fst :=
      List.mem_map.mpr ⟨p, hp, rfl⟩
    rw [heq] at hmem
    have := dictGet_isSome_of_mem hmem
    rw [hnone] at this
    simp at this

/-- Witness for C6 at a concrete input: `t1` resolved at time 0 is still
retained by a sweep at day 29 and gone after a sweep at day 31. -/
theorem C6_retention_window_witness :
    dictGet (purge_old_resolved_alerts
        [("t1", ({ note := "", resolved_at := some 0 } : ResolvedMeta))]
        (0 + 29 * secondsPerDay)) "t1" =
      some { note := "", resolved_at := some 0 } ∧
    dictGet (purge_old_resolved_alerts
        [("t1", ({ note := "", resolved_at := some 0 } : ResolvedMeta))]
        (0 + 31 * secondsPerDay)) "t1" = none := by
  have h := C6_retention_window suspiciousBatch1 [] 0 "t1" none
    [("t1", { note := "", resolved_at := some 0 })] (by simp) rfl
  exact ⟨h.1, h.2.1⟩

/-! ### Claim C7 (corrected) -/

/-- Claim C7 counterexample: the claim "when the purge sweep cannot
compute an entry's age it does nothing to that data" is false.  A resolved
entry whose stored `resolved_at` does not parse (`dt is None`) is removed
by the very next sweep, at any time whatsoever (here `now = 0`). -/
theorem C7_counterexample :
    dictGet [("T1", ({ note := "n", resolved_at := none } : ResolvedMeta))] "T1" =
      some { note := "n", resolved_at := none } ∧
    purge_old_resolved_alerts
      [("T1", ({ note := "n", resolved_at := none } : ResolvedMeta))] 0 = [] := by
  constructor <;> rfl

/-- Claim C7 as amended: only a failure of the sweep as a whole leaves the
map untouched; per entry, the sweep keeps exactly the entries whose stored
timestamp parses and is not older than the cutoff — an entry whose
`resolved_at` fails to parse is treated as expired and removed, and an
entry with a parseable timestamp is removed exactly when it is older than
the cutoff. -/
theorem C7_amended (m : RMap) (now : Int) (tid : String) (v : ResolvedMeta)
    (hnd : (m.map Prod.fst).Nodup) (hget : dictGet m tid = some v) :
    dictGet (purge_old_resolved_alerts m now) tid =
      match v.resolved_at with
      | none => none
      | some t =>
          if t < now - RETENTION_DAYS * secondsPerDay then none else some v := by
  unfold purge_old_resolved_alerts
  cases hts : v.resolved_at with
  | none =>
      exact dictGet_filter_none _ hnd hget (by simp [hts])
  | some t =>
      by_cases hlt : t < now - RETENTION_DAYS * secondsPerDay
      · show _ = if t < now - RETENTION_DAYS * secondsPerDay then none else some v
        rw [if_pos hlt]
        exact dictGet_filter_none _ hnd hget (by simp [hts, hlt])
      · show _ = if t < now - RETENTION_DAYS * secondsPerDay then none else some v
        rw [if_neg hlt]
        exact dictGet_filter_keep _ hget (by simp [hts, hlt])

/-- Witness for C7 (amended) at a concrete input: an entry resolved at
time 0 is kept by a sweep at time 0. -/
theorem C7_amended_witness :
    dictGet (purge_old_resolved_alerts
        [("t1", ({ note := "", resolved_at := some 0 } : ResolvedMeta))] 0) "t1" =
      some { note := "", resolved_at := some 0 } := by
  have h := C7_amended [("t1", { note := "", resolved_at := some 0 })] 0 "t1"
    { note := "", resolved_at := some 0 } (by simp) rfl
  simpa using h

/-! ### Claim C8 (corrected) -/

def c8summary : ReportSummary :=
  { month := "2020-01", generated_at := 0, total_flagged := 0, resolved := 0,
    unresolved := 0, by_regulator := [], by_category := [] }

/-- A report store holding the artifact pair for month 2020-01, both files
with mtime 0 (i.e. written 400 days before the request below). -/
def c8store : ReportStore :=
  { csv := [("2020-01", ([], 0))], json := [("2020-01", (c8summary, 0))] }

/-- Claim C8 counterexample: the claim "generation for a month whose
artifact already exists returns an exists status and leaves the artifact
pair unchanged in content and timestamp" is false.  For an artifact pair
older than the report retention horizon (365 days), the generate request
first purges the pair and then regenerates it: the status is "generated"
and the store changes. -/
theorem C8_counterexample :
    monthly_report_exists c8store "2020-01" = true ∧
    (reports_generate [] [] c8store (400 * secondsPerDay) (some "2020-01")).2 =
      "generated" ∧
    (reports_generate [] [] c8store (400 * secondsPerDay) (some "2020-01")).1 ≠
      c8store := by
  refine ⟨rfl, ?_, ?_⟩ <;> decide

/-- Claim C8 as amended: requesting generation for a month whose artifact
pair exists with both file mtimes within the report retention horizon
returns the "exists" status and leaves that month's two artifacts
unchanged in content and timestamp; only months whose pair is absent (or
was just purged as stale) are (re)generated. -/
theorem C8_amended (df : List ScoredRow) (m : RMap) (st : ReportStore)
    (now : Int) (month : String)
    (c : List (ScoredRow × Bool) × Int) (j : ReportSummary × Int)
    (hcsv : dictGet st.csv month = some c)
    (hjson : dictGet st.json month = some j)
    (hcfresh : ¬ c.2 < now - REPORT_RETENTION_DAYS * secondsPerDay)
    (hjfresh : ¬ j.2 < now - REPORT_RETENTION_DAYS * secondsPerDay) :
    (reports_generate df m st now (some month)).2 = "exists" ∧
    dictGet (reports_generate df m st now (some month)).1.csv month = some c ∧
    dictGet (reports_generate df m st now (some month)).1.json month = some j := by
  have hc1 : dictGet (purge_old_monthly_reports st now).csv month = some c := by
    unfold purge_old_monthly_reports
    exact dictGet_filter_keep _ hcsv (by simpa using hcfresh)
  have hj1 : dictGet (purge_old_monthly_reports st now).json month = some j := by
    unfold purge_old_monthly_reports
    exact dictGet_filter_keep _ hjson (by simpa using hjfresh)
  have hex : monthly_report_exists (purge_old_monthly_reports st now) month = true := by
    unfold monthly_report_exists
    rw [hc1, hj1]
    rfl
  refine ⟨?_, ?_, ?_⟩
  · simp [reports_generate, Option.getD_some, hex]
  · simp only [reports_generate, Option.getD_some, hex, if_true]
    exact hc1
  · simp only [reports_generate, Option.getD_some, hex, if_true]
    exact hj1

/-- Witness for C8 (amended) at a concrete input: a request at time 0
against the store whose pair for 2020-01 has mtime 0 returns "exists". -/
theorem C8_amended_witness :
    (reports_generate [] [] c8store 0 (some "2020-01")).2 = "exists" :=
  (C8_amended [] [] c8store 0 "2020-01" ([], 0) (c8summary, 0) rfl rfl
    (by decide) (by decide)).1

/-! ### Claim C10 -/

theorem flags_filter_tid_subset (o : Option String) (l : List ScoredRow) :
    ∀ x ∈ flags_filter_tid o l, x ∈ l := by
  intro x hx
  cases o with
  | none => exact hx
  | some t => exact List.mem_of_mem_filter hx

theorem flags_filter_cid_subset (o : Option String) (l : List ScoredRow) :
    ∀ x ∈ flags_filter_cid o l, x ∈ l := by
  intro x hx
  cases o with
  | none => exact hx
  | some c => exact List.mem_of_mem_filter hx

theorem flags_filter_cids_subset (o : Option (List String)) (l : List ScoredRow) :
    ∀ x ∈ flags_filter_cids o l, x ∈ l := by
  intro x hx
  cases o with
  | none => exact hx
  | some ids =>
      dsimp only [flags_filter_cids] at hx
      split_ifs at hx
      · exact List.mem_of_mem_filter hx
      · exact hx

theorem flags_filter_reg_subset (o : Option String) (l : List ScoredRow) :
    ∀ x ∈ flags_filter_reg o l, x ∈ l := by
  intro x hx
  cases o with
  | none => exact hx
  | some rg => exact List.mem_of_mem_filter hx

theorem flags_filter_bj_subset (o : Option String) (l : List ScoredRow) :
    ∀ x ∈ flags_filter_bj o l, x ∈ l := by
  intro x hx
  cases o with
  | none => exact hx
  | some bj => exact List.mem_of_mem_filter hx

theorem flags_filter_resolved_subset (o : Option Bool) (m2 : RMap)
    (l : List ScoredRow) : ∀ x ∈ flags_filter_resolved o m2 l, x ∈ l := by
  intro x hx
  cases o with
  | none => exact hx
  | some b => cases b <;> exact List.mem_of_mem_filter hx

/-- Every record returned by `get_flags` comes from the scored batch. -/
theorem get_flags_mem (df : List ScoredRow) (m : RMap) (now : Int)
    (f : FlagFilters) (rec : ScoredRow × Bool)
    (h : rec ∈ (get_flags df m now f).2) : rec.1 ∈ df := by
  unfold get_flags at h
  obtain ⟨rr, hrr, hrec⟩ := List.mem_map.mp h
  have h1 := List.mem_of_mem_take hrr
  have h2 := flags_filter_resolved_subset _ _ _ _ h1
  have h3 := flags_filter_bj_subset _ _ _ h2
  have h4 := flags_filter_reg_subset _ _ _ h3
  have h5 := flags_filter_cids_subset _ _ _ h4
  have h6 := flags_filter_cid_subset _ _ _ h5
  have h7 := flags_filter_tid_subset _ _ _ h6
  have h8 := List.mem_of_mem_filter h7
  subst hrec
  exact h8

/-- Claim C10: the service scores and serves only the first 100 rows of
the loaded batch.  For an input with more than 100 rows, the scored batch
has exactly 100 rows, all drawn from the first 100 input rows; every
query result comes from those rows; and resolving an id that occurs only
beyond row 100 fails with NotFound. -/
theorem C10_only_first_100 (rows : List Row) (m : RMap) (now : Int)
    (tid : String) (note : Option String)
    (hlen : 100 < rows.length)
    (hid : ∀ r ∈ rows.take 100, getStr r.transaction_id ≠ tid) :
    (load_and_score rows).length = 100 ∧
    (∀ sr ∈ load_and_score rows, sr.1 ∈ rows.take 100) ∧
    (∀ f : FlagFilters, ∀ rec ∈ (get_flags (load_and_score rows) m now f).2,
        rec.1.1 ∈ rows.take 100) ∧
    (∃ e, resolve_alert (load_and_score rows) m now tid note = .error e) := by
  have hmem : ∀ sr ∈ load_and_score rows, sr.1 ∈ rows.take 100 := by
    intro sr hsr
    obtain ⟨a, b⟩ := sr
    exact (List.of_mem_zip hsr).1
  refine ⟨?_, hmem, ?_, ?_⟩
  · simp only [load_and_score, process_dataframe, List.length_zip,
      List.length_take, List.length_map]
    omega
  · intro f rec hrec
    exact hmem _ (get_flags_mem _ _ _ _ _ hrec)
  · have hcond : ((load_and_score rows).filter
        (fun rr => rr.2.is_suspicious)).any
        (fun rr => getStr rr.1.transaction_id == tid) = false := by
      rw [List.any_eq_false]
      intro rr hrr
      have h1 := List.mem_of_mem_filter hrr
      have h2 := hmem rr h1
      simpa using hid rr.1 h2
    refine ⟨"Alert for transaction " ++ tid ++ " not found or not suspicious", ?_⟩
    unfold resolve_alert
    rw [if_neg (by simp [hcond])]

/-- Witness for C10 at a concrete input: a 101-row batch is truncated to
100 scored rows. -/
theorem C10_only_first_100_witness :
    (load_and_score (List.replicate 101 ({} : Row))).length = 100 := by
  have h := C10_only_first_100 (List.replicate 101 {}) [] 0 "x" none
    (by simp)
    (by
      intro r hr
      have hrepl := List.eq_of_mem_replicate (List.mem_of_mem_take hr)
      rw [hrepl]
      decide)
  exact h.1

/-! ### Claim C9: percentile analysis -/

theorem length_filterMap_all_some {α β : Type _} (f : α → Option β) (l : List α)
    (h : ∀ x ∈ l, (f x).isSome) : (l.filterMap f).length = l.length := by
  induction l with
  | nil => rfl
  | cons x xs ih =>
      obtain ⟨b, hb⟩ := Option.isSome_iff_exists.mp (h x (List.mem_cons_self ..))
      rw [List.filterMap_cons, hb]
      simp only [List.length_cons]
      rw [ih (fun y hy => h y (List.mem_cons_of_mem _ hy))]

/-- Sorting a list that is a permutation of `bs ++ [a]` with `a` an upper
bound of `bs` puts `a` last, after the sorted `bs`. -/
theorem insertionSort_append_max (l bs : List ℚ) (a : ℚ)
    (hperm : List.Perm l (bs ++ [a])) (hle : ∀ b ∈ bs, b ≤ a) :
    List.insertionSort (· ≤ ·) l = List.insertionSort (· ≤ ·) bs ++ [a] := by
  refine List.eq_of_perm_of_sorted ?_ (List.sorted_insertionSort (· ≤ ·) l) ?_
  · exact (List.perm_insertionSort _ l).trans
      (hperm.trans ((List.perm_insertionSort _ bs).symm.append_right [a]))
  · show List.Pairwise _ _
    rw [List.pairwise_append]
    refine ⟨List.sorted_insertionSort _ _, List.sorted_singleton _, ?_⟩
    intro x hx y hy
    rw [List.mem_singleton] at hy
    subst hy
    exact hle x ((List.perm_insertionSort _ bs).mem_iff.mp hx)

/-- In a sorted 5-element list, the element at index 4 bounds them all. -/
theorem sorted_max_getD4 (s : List ℚ) (hs : List.Sorted (· ≤ ·) s)
    (hlen : s.length = 5) : ∀ b ∈ s, b ≤ s.getD 4 0 := by
  intro b hb
  obtain ⟨i, hi⟩ := List.mem_iff_get.mp hb
  rw [List.getD_eq_get _ _ (show 4 < s.length by omega)]
  rcases lt_or_eq_of_le (show i.val ≤ 4 by omega) with hlt | heq
  · have := hs.rel_get_of_lt
      (show i < (⟨4, by omega⟩ : Fin s.length) from hlt)
    rw [hi] at this
    exact this
  · have hieq : i = (⟨4, by omega⟩ : Fin s.length) := Fin.ext heq
    rw [← hi, hieq]

/-- The 95th percentile of six values whose sort is `s5 ++ [a]`: linear
interpolation at position 4.75 between the 4th and 5th order statistics. -/
theorem percentile95_six (l s5 : List ℚ) (a : ℚ)
    (hsort : List.insertionSort (· ≤ ·) l = s5 ++ [a]) (hlen : s5.length = 5) :
    percentile 95 l = s5.getD 4 0 + 3 / 4 * (a - s5.getD 4 0) := by
  have hlapp : (s5 ++ [a]).length = 6 := by simp [hlen]
  have h4lt : 4 < s5.length := by omega
  have hfloor : Int.floor ((95 : ℚ) / 100 * (((6 : ℕ) : ℚ) - 1)) = 4 := by
    rw [Int.floor_eq_iff] <;> norm_num
  unfold percentile
  rw [hsort]
  simp only [hlapp]
  rw [if_neg (by norm_num)]
  rw [hfloor]
  have ht : (4 : ℤ).toNat = 4 := rfl
  rw [ht]
  have hmin : (4 + 1) ⊓ (6 - 1) = 5 := rfl
  rw [hmin]
  have hfrac : (95 : ℚ) / 100 * (((6 : ℕ) : ℚ) - 1) - ((4 : ℤ) : ℚ) = 3 / 4 := by
    norm_num
  rw [hfrac]
  rw [List.getD_append _ _ _ _ h4lt,
      List.getD_append_right _ _ _ _ (by omega : s5.length ≤ 5)]
  have h50 : 5 - s5.length = 0 := by omega
  rw [h50]
  rfl

/-- "No amount or flag anomalies": none of the per-field rule tests other
than the two amount-vs-threshold comparisons fires for the row. -/
def no_flag_anomalies (r : Row) : Prop :=
  hr_rule1 r = none ∧ hr_rule2 r = none ∧ hr_rule3 r = none ∧ hr_rule4 r = none ∧
  hr_rule6 r = none ∧ hr_rule7 r = none ∧ hr_rule8 r = none ∧
  sd_rule1 r = none ∧ sd_rule3 r = none ∧ sd_rule4 r = none ∧ sd_rule5 r = none

instance (r : Row) : Decidable (no_flag_anomalies r) := by
  unfold no_flag_anomalies
  infer_instance

/-- Claim C9: in a 6-transaction batch where exactly one transaction has
an amount strictly above the other five (all parseable, nonnegative) and
carries a "low" client risk profile, and the other five show no flag
anomalies: the whole batch is scored against the one calibrated threshold,
the outlier's amount exceeds that threshold, the outlier is suspicious
with category HIGH PRIORITY (hence at least LOW), and each of the other
five has `is_suspicious = false`. -/
theorem C9_outlier_batch (l1 l2 : List Row) (out : Row) (a : ℚ)
    (hlen : l1.length + l2.length = 5)
    (hamt : out.amount = some (some a))
    (hlow : strLower (getStr out.client_risk_profile) = "low")
    (hothers : ∀ r ∈ l1 ++ l2, ∃ b : ℚ, r.amount = some (some b) ∧ 0 ≤ b ∧ b < a)
    (hclean : ∀ r ∈ l1 ++ l2, no_flag_anomalies r) :
    process_dataframe (l1 ++ out :: l2) =
      (l1 ++ out :: l2).map
        (score_row (calculate_high_amount_threshold (l1 ++ out :: l2))) ∧
    calculate_high_amount_threshold (l1 ++ out :: l2) < a ∧
    0 < calculate_high_amount_threshold (l1 ++ out :: l2) ∧
    (score_row (calculate_high_amount_threshold (l1 ++ out :: l2)) out).is_suspicious
      = true ∧
    (score_row (calculate_high_amount_threshold (l1 ++ out :: l2)) out).risk_category
      = "HIGH PRIORITY RISK" ∧
    ∀ r ∈ l1 ++ l2,
      (score_row (calculate_high_amount_threshold (l1 ++ out :: l2)) r).is_suspicious
        = false := by
  have hsplit : parsed_amounts (l1 ++ out :: l2) =
      parsed_amounts l1 ++ a :: parsed_amounts l2 := by
    simp [parsed_amounts, hamt]
  have happ : parsed_amounts (l1 ++ l2) = parsed_amounts l1 ++ parsed_amounts l2 := by
    unfold parsed_amounts
    rw [List.filterMap_append]
  have hall : ∀ b ∈ parsed_amounts l1 ++ parsed_amounts l2, 0 ≤ b ∧ b < a := by
    intro b hb
    rw [← happ] at hb
    obtain ⟨r, hr, hfb⟩ := List.mem_filterMap.mp hb
    obtain ⟨b', hb', h0, hba⟩ := hothers r hr
    rw [hb'] at hfb
    simp at hfb
    obtain rfl := hfb
    exact ⟨h0, hba⟩
  have hlen1 : (parsed_amounts l1).length = l1.length :=
    length_filterMap_all_some _ _ (fun r hr => by
      obtain ⟨b, hb, -, -⟩ := hothers r (List.mem_append.mpr (Or.inl hr))
      simp [hb])
  have hlen2 : (parsed_amounts l2).length = l2.length :=
    length_filterMap_all_some _ _ (fun r hr => by
      obtain ⟨b, hb, -, -⟩ := hothers r (List.mem_append.mpr (Or.inr hr))
      simp [hb])
  have hbs_len : (parsed_amounts l1 ++ parsed_amounts l2).length = 5 := by
    rw [List.length_append, hlen1, hlen2, hlen]
  have hperm : List.Perm (parsed_amounts (l1 ++ out :: l2))
      ((parsed_amounts l1 ++ parsed_amounts l2) ++ [a]) := by
    rw [hsplit]
    exact List.perm_middle.trans (List.perm_append_singleton a _).symm
  have hsort : List.insertionSort (· ≤ ·) (parsed_amounts (l1 ++ out :: l2)) =
      List.insertionSort (· ≤ ·) (parsed_amounts l1 ++ parsed_amounts l2) ++ [a] :=
    insertionSort_append_max _ _ _ hperm (fun b hb => le_of_lt (hall b hb).2)
  have hsort_len :
      (List.insertionSort (· ≤ ·) (parsed_amounts l1 ++ parsed_amounts l2)).length
        = 5 := by
    rw [(List.perm_insertionSort _ _).length_eq, hbs_len]
  set M := (List.insertionSort (· ≤ ·)
      (parsed_amounts l1 ++ parsed_amounts l2)).getD 4 0 with hM_def
  have hM_mem : M ∈ parsed_amounts l1 ++ parsed_amounts l2 := by
    rw [hM_def, List.getD_eq_get _ _ (show 4 < _ by rw [hsort_len]; norm_num)]
    exact (List.perm_insertionSort _ _).subset (List.get_mem _ _ _)
  have hM_bounds := hall M hM_mem
  have hM_max : ∀ b ∈ parsed_amounts l1 ++ parsed_amounts l2, b ≤ M := by
    intro b hb
    exact sorted_max_getD4 _ (List.sorted_insertionSort _ _) hsort_len b
      ((List.perm_insertionSort _ _).mem_iff.mpr hb)
  have hpos : (parsed_amounts (l1 ++ out :: l2)).length > 0 := by
    rw [hsplit]
    simp
  have h95 : percentile high_amount_threshold_percentile
      (parsed_amounts (l1 ++ out :: l2)) = M + 3 / 4 * (a - M) := by
    rw [hM_def]
    exact percentile95_six _ _ _ hsort hsort_len
  have hthr : calculate_high_amount_threshold (l1 ++ out :: l2) =
      M + 3 / 4 * (a - M) := by
    unfold calculate_high_amount_threshold
    rw [if_pos hpos, h95]
  set thr := calculate_high_amount_threshold (l1 ++ out :: l2) with hthr_def
  have hthr_lt : thr < a := by rw [hthr]; linarith [hM_bounds.2]
  have hthr_pos : 0 < thr := by rw [hthr]; linarith [hM_bounds.1, hM_bounds.2]
  have hbound : ∀ b ∈ parsed_amounts l1 ++ parsed_amounts l2, b < thr := by
    intro b hb
    have := hM_max b hb
    rw [hthr]
    linarith [hM_bounds.2]
  have hr5 : hr_rule5 thr out = some (Reason.lowRiskHighAmount a) := by
    unfold hr_rule5
    rw [hamt]
    show (if strLower (getStr out.client_risk_profile) = "low" ∧ thr ≠ 0 ∧ a > thr
      then some (Reason.lowRiskHighAmount a) else none) =
      some (Reason.lowRiskHighAmount a)
    rw [if_pos ⟨hlow, ne_of_gt hthr_pos, hthr_lt⟩]
  have hfst : (check_high_risk_variables thr out).1 = true := by
    show (!(List.filterMap id
      [hr_rule1 out, hr_rule2 out, hr_rule3 out, hr_rule4 out, hr_rule5 thr out,
       hr_rule6 out, hr_rule7 out, hr_rule8 out]).isEmpty) = true
    have hmem : Reason.lowRiskHighAmount a ∈ List.filterMap id
        [hr_rule1 out, hr_rule2 out, hr_rule3 out, hr_rule4 out, hr_rule5 thr out,
         hr_rule6 out, hr_rule7 out, hr_rule8 out] :=
      List.mem_filterMap.mpr
        ⟨some (Reason.lowRiskHighAmount a), by rw [← hr5]; simp, rfl⟩
    rcases hcase : List.filterMap id
        [hr_rule1 out, hr_rule2 out, hr_rule3 out, hr_rule4 out, hr_rule5 thr out,
         hr_rule6 out, hr_rule7 out, hr_rule8 out] with - | ⟨x, xs⟩
    · rw [hcase] at hmem
      simp at hmem
    · simp
  have hcat : (score_row thr out).risk_category = "HIGH PRIORITY RISK" := by
    show classify_risk (check_high_risk_variables thr out).1
      (check_suspicious_detection_variables thr out).1 = _
    rw [hfst]
    rfl
  refine ⟨rfl, hthr_lt, hthr_pos, ?_, hcat, ?_⟩
  · have his : (score_row thr out).is_suspicious =
        decide ((score_row thr out).risk_category ≠ "") := rfl
    rw [his, hcat]
    rfl
  · intro r hr
    obtain ⟨b, hb, h0b, hba⟩ := hothers r hr
    have hbmem : b ∈ parsed_amounts l1 ++ parsed_amounts l2 := by
      rw [← happ]
      exact List.mem_filterMap.mpr ⟨r, hr, by simp [hb]⟩
    have hblt : b < thr := hbound b hbmem
    obtain ⟨c1, c2, c3, c4, c6, c7, c8, d1, d3, d4, d5⟩ := hclean r hr
    have hr5r : hr_rule5 thr r = none := by
      unfold hr_rule5
      rw [hb]
      show (if strLower (getStr r.client_risk_profile) = "low" ∧ thr ≠ 0 ∧ b > thr
        then some (Reason.lowRiskHighAmount b) else none) = none
      rw [if_neg ?_]
      rintro ⟨-, -, hgt⟩
      exact absurd hgt (not_lt.mpr hblt.le)
    have hs2r : sd_rule2 thr r = none := by
      unfold sd_rule2
      rw [hb]
      show (if thr ≠ 0 ∧ strLower (getStr r.client_risk_profile) = "low" ∧ b > thr
        then some (Reason.unusualAmountLowRisk b) else none) = none
      rw [if_neg ?_]
      rintro ⟨-, -, hgt⟩
      exact absurd hgt (not_lt.mpr hblt.le)
    have hfstr : (check_high_risk_variables thr r).1 = false := by
      show (!(List.filterMap id
        [hr_rule1 r, hr_rule2 r, hr_rule3 r, hr_rule4 r, hr_rule5 thr r,
         hr_rule6 r, hr_rule7 r, hr_rule8 r]).isEmpty) = false
      rw [c1, c2, c3, c4, hr5r, c6, c7, c8]
      rfl
    have hcntr : (check_suspicious_detection_variables thr r).1 = 0 := by
      show (List.filterMap id
        [sd_rule1 r, sd_rule2 thr r, sd_rule3 r, sd_rule4 r, sd_rule5 r]).length = 0
      rw [d1, hs2r, d3, d4, d5]
      rfl
    show decide (classify_risk (check_high_risk_variables thr r).1
      (check_suspicious_detection_variables thr r).1 ≠ "") = false
    rw [hfstr, hcntr]
    rfl

/-- A quiet transaction: amount 100, no flags. -/
def c9quiet : Row := { amount := some (some 100) }

/-- The outlier: amount 2500 (5 times the batch mean of 500), low client
risk profile. -/
def c9out : Row := { amount := some (some 2500), client_risk_profile := some "low" }

/-- Witness for C9 at a concrete input: in the batch of five quiet
100-amount transactions plus the 2500 outlier (placed third), the outlier
is flagged and the five others are not. -/
theorem C9_outlier_batch_witness :
    (score_row (calculate_high_amount_threshold
        ([c9quiet, c9quiet] ++ c9out :: [c9quiet, c9quiet, c9quiet]))
      c9out).is_suspicious = true ∧
    ∀ r ∈ [c9quiet, c9quiet] ++ [c9quiet, c9quiet, c9quiet],
      (score_row (calculate_high_amount_threshold
          ([c9quiet, c9quiet] ++ c9out :: [c9quiet, c9quiet, c9quiet]))
        r).is_suspicious = false := by
  have h := C9_outlier_batch [c9quiet, c9quiet] [c9quiet, c9quiet, c9quiet]
    c9out 2500 rfl rfl (by decide)
    (by
      intro r hr
      simp only [List.mem_append, List.mem_cons, List.not_mem_nil, or_false,
        or_self] at hr
      subst hr
      exact ⟨100, rfl, by norm_num, by norm_num⟩)
    (by
      intro r hr
      simp only [List.mem_append, List.mem_cons, List.not_mem_nil, or_false,
        or_self] at hr
      subst hr
      exact (by decide : no_flag_anomalies c9quiet))
  exact ⟨h.2.2.2.1, h.2.2.2.2.2⟩

end AML
